import Mathlib

/-!
Verification development for an aerial person-detection GUI application.
The relevant modules are embedded as executable Lean definitions:
`settings.py` constants, `detection_processor.py` statistics and text
formatting, `model_manager.py` model lifecycle and thresholds, and
`video_processor.py` frame-source handling and the playback loops.
Floating-point values in the source are modelled as rationals; images,
frames and model objects are modelled by opaque identifiers carrying
exactly the attributes the code reads.
-/

/-- `CLASS_EMOJIS` from settings.py: class-name (lower case) to emoji. -/
def CLASS_EMOJIS : List (String × String) :=
  [("soldier", "🔴"), ("civilian", "🟢"), ("person", "🔵"),
   ("combatant", "🟠"), ("folks", "🟡")]

/-- `DEFAULT_CONFIDENCE_THRESHOLD = 0.5` from settings.py. -/
def DEFAULT_CONFIDENCE_THRESHOLD : ℚ := 1/2

/-- `DEFAULT_IOU_THRESHOLD = 0.45` from settings.py. -/
def DEFAULT_IOU_THRESHOLD : ℚ := 9/20

/-- Round `q * k` to the nearest integer (half away from zero for the
nonnegative values occurring here); models Python fixed-point rendering
`{q:.1f}` via `k = 10`, `{q:.3f}` via `k = 1000`, `{q:.0f}` via `k = 1`. -/
def roundTo (k : Int) (q : ℚ) : Int :=
  (2 * q.num * k + (q.den : Int)) / (2 * (q.den : Int))

/-- Render a rational with one decimal place, as Python `{q:.1f}`. -/
def fmt1 (q : ℚ) : String :=
  let n := roundTo 10 q
  toString (n / 10) ++ "." ++ toString (n % 10)

/-- Left-pad a fractional part to three digits. -/
def pad3 (m : Int) : String :=
  if m < 10 then "00" ++ toString m
  else if m < 100 then "0" ++ toString m
  else toString m

/-- Render a rational with three decimal places, as Python `{q:.3f}`. -/
def fmt3 (q : ℚ) : String :=
  let n := roundTo 1000 q
  toString (n / 1000) ++ "." ++ pad3 (n % 1000)

/-- Render a rational rounded to an integer, as Python `{q:.0f}`. -/
def fmt0 (q : ℚ) : String := toString (roundTo 1 q)

/-- Render a counter with two digits, as Python `{i:02d}`. -/
def pad2 (i : Nat) : String :=
  if i < 10 then "0" ++ toString i else toString i

/-- Python `str.lower()` for the ASCII class names used here. -/
def strLower (s : String) : String := String.mk (s.data.map Char.toLower)

/-- `self.class_emojis.get(class_name.lower(), "⚪")` from
detection_processor.py. -/
def emojiFor (className : String) : String :=
  (CLASS_EMOJIS.lookup (strLower className)).getD "⚪"

/-- One detection row of the YOLOv5 results table: the columns read by
detection_processor.py. -/
structure Detection where
  name : String
  confidence : ℚ
  xmin : ℚ
  ymin : ℚ
  xmax : ℚ
  ymax : ℚ
deriving DecidableEq

/-- The `confidence_stats` dictionary of `generate_detection_stats`. -/
structure ConfStats where
  average : ℚ
  low : ℚ
  high : ℚ
deriving DecidableEq

/-- The dictionary returned by `generate_detection_stats`; `class_counts`
keeps the key order of the Python dict it came from. `confidence_stats`
is `none` for the empty `{}` of the empty-batch branch. -/
structure DetectionStats where
  total_detections : Nat
  class_counts : List (String × Nat)
  confidence_stats : Option ConfStats
deriving DecidableEq

/-- Distinct labels of a name column in first-seen order. -/
def firstSeen (names : List String) : List String :=
  names.foldl (fun acc n => if n ∈ acc then acc else acc ++ [n]) []

/-- Insert a (label, count) pair into a descending-count list, after every
entry whose count is at least as large (stable for equal counts). -/
def insertByCount (p : String × Nat) : List (String × Nat) → List (String × Nat)
  | [] => [p]
  | q :: rest => if q.2 < p.2 then p :: q :: rest else q :: insertByCount p rest

/-- Stable sort of (label, count) pairs by descending count. -/
def sortByCountDesc (l : List (String × Nat)) : List (String × Nat) :=
  l.foldl (fun acc p => insertByCount p acc) []

/-- `detections['name'].value_counts().to_dict()`: pandas counts each
distinct label and returns the pairs sorted by descending count (ties in
order of first appearance). -/
def value_counts (names : List String) : List (String × Nat) :=
  sortByCountDesc ((firstSeen names).map (fun l => (l, names.count l)))

/-- `DetectionProcessor.generate_detection_stats` (detection_processor.py
lines 82-115): empty batch gives zero totals and empty dictionaries;
otherwise the class distribution comes from `value_counts` and the
confidence statistics are mean, min and max of the confidence column. -/
def generate_detection_stats : List Detection → DetectionStats
  | [] => ⟨0, [], none⟩
  | d :: ds =>
    let l := d :: ds
    ⟨l.length,
     value_counts (l.map Detection.name),
     some ⟨(l.map Detection.confidence).sum / (l.length : ℚ),
           ds.foldl (fun a x => min a x.confidence) d.confidence,
           ds.foldl (fun a x => max a x.confidence) d.confidence⟩⟩

/-- One numbered block of `format_detection_results`. -/
def detectionBlock (i : Nat) (d : Detection) : String :=
  "Detection #" ++ pad2 i ++ " " ++ emojiFor d.name ++ "\n" ++
  "├─ Class: " ++ d.name ++ "\n" ++
  "├─ Confidence: " ++ fmt3 d.confidence ++ " (" ++ fmt1 (d.confidence * 100) ++ "%)\n" ++
  "└─ BBox: (" ++ fmt0 d.xmin ++ ", " ++ fmt0 d.ymin ++ ") → (" ++
    fmt0 d.xmax ++ ", " ++ fmt0 d.ymax ++ ")\n" ++
  "\n" ++ String.mk (List.replicate 40 '─') ++ "\n\n"

/-- `DetectionProcessor.format_detection_results` (lines 117-151): the
fixed no-detections message on an empty batch, otherwise a header plus
one block per detection, numbered from 1 in batch order. -/
def format_detection_results (l : List Detection) : String :=
  if l.isEmpty then
    "🚫 No detections found.\n\nTry adjusting the confidence threshold or using a different image."
  else
    "🎯 DETECTION RESULTS\n" ++ String.mk (List.replicate 50 '=') ++ "\n\n" ++
    String.join (l.enum.map (fun p => detectionBlock (p.1 + 1) p.2))

/-- The percentage computed for each class line of
`format_statistics_text` (line 170): `count / total * 100`. -/
def statsPercentages (st : DetectionStats) : List (String × ℚ) :=
  st.class_counts.map (fun p => (p.1, ((p.2 : ℚ) / (st.total_detections : ℚ)) * 100))

/-- `DetectionProcessor.format_statistics_text` (lines 153-179): the fixed
zero-total message when `total_detections = 0` (before any percentage is
computed), otherwise total, per-class lines with one-decimal percentages,
and three-decimal confidence statistics. A nonzero-total stats value
always carries confidence statistics, so the `getD` default is inert. -/
def format_statistics_text (st : DetectionStats) : String :=
  if st.total_detections = 0 then "📊 Total Detections: 0"
  else
    let cs := st.confidence_stats.getD ⟨0, 0, 0⟩
    "📊 Total Detections: " ++ toString st.total_detections ++
    "\n\n📈 Class Distribution:\n" ++
    String.join (st.class_counts.map (fun p =>
      emojiFor p.1 ++ " " ++ p.1 ++ ": " ++ toString p.2 ++ " (" ++
      fmt1 (((p.2 : ℚ) / (st.total_detections : ℚ)) * 100) ++ "%)\n")) ++
    "\n🎯 Confidence Stats:\n" ++
    "   Average: " ++ fmt3 cs.average ++ "\n" ++
    "   Range: " ++ fmt3 cs.low ++ " - " ++ fmt3 cs.high

/-- The YOLOv5 model object as model_manager.py uses it: a handle with the
mutable `conf` and `iou` attributes the manager writes before inference. -/
structure YoloModel where
  conf : ℚ
  iou : ℚ
deriving DecidableEq

/-- One backend inference call `self.model(image)`, recording the image
and the `conf`/`iou` attribute values in force when it runs. -/
structure InferenceCall where
  image : Nat
  conf : ℚ
  iou : ℚ
deriving DecidableEq

/-- `ModelManager` state (model_manager.py lines 10-14): optional model,
path string, and the two stored thresholds. -/
structure ModelManager where
  model : Option YoloModel
  model_path : String
  confidence_threshold : ℚ
  iou_threshold : ℚ
deriving DecidableEq

/-- `ModelManager.__init__` in an environment with no `best.pt` to
auto-load: no model, empty path, default thresholds 0.5 and 0.45. -/
def ModelManager.init : ModelManager :=
  ⟨none, "", DEFAULT_CONFIDENCE_THRESHOLD, DEFAULT_IOU_THRESHOLD⟩

/-- `ModelManager.load_model` (lines 40-60). `torch.hub.load` is the
external backend, modelled as a function from path to `Option YoloModel`
(`none` = the constructor raised, e.g. nonexistent path). The `try` block
assigns `self.model`, sets its thresholds and records the path only after
the construction succeeds; the `except` branch returns `False` with every
field untouched. -/
def load_model (hub : String → Option YoloModel) (mm : ModelManager)
    (path : String) : Bool × ModelManager :=
  match hub path with
  | none => (false, mm)
  | some m =>
    (true, { mm with
      model := some { m with
        conf := mm.confidence_threshold,
        iou := mm.iou_threshold },
      model_path := path })

/-- `ModelManager.update_confidence` (lines 62-66). -/
def update_confidence (c : ℚ) (mm : ModelManager) : ModelManager :=
  { mm with
    confidence_threshold := c,
    model := mm.model.map (fun m => { m with conf := c }) }

/-- `ModelManager.update_iou` (lines 68-72). -/
def update_iou (i : ℚ) (mm : ModelManager) : ModelManager :=
  { mm with
    iou_threshold := i,
    model := mm.model.map (fun m => { m with iou := i }) }

/-- The spec's `configure(confidence, iou)`: the GUI propagates both
slider values via `update_confidence` and `update_iou`. -/
def configure (c i : ℚ) (mm : ModelManager) : ModelManager :=
  update_iou i (update_confidence c mm)

/-- `ModelManager.predict` (lines 74-91): raises `RuntimeError("No model
loaded")` without a model; otherwise writes the stored thresholds into
`model.conf` / `model.iou` and runs the backend call with them. -/
def predict (mm : ModelManager) (image : Nat) :
    Except String (InferenceCall × ModelManager) :=
  match mm.model with
  | none => Except.error "No model loaded"
  | some m =>
    let m2 : YoloModel := { m with
      conf := mm.confidence_threshold,
      iou := mm.iou_threshold }
    Except.ok (⟨image, m2.conf, m2.iou⟩, { mm with model := some m2 })

/-- The inference call produced by `predict`, without the state part. -/
def predictCall (mm : ModelManager) (image : Nat) : Except String InferenceCall :=
  (predict mm image).map Prod.fst

/-- `os.path.basename` restricted to forward-slash paths. -/
def basename (p : String) : String := (p.splitOn "/").getLastD p

/-- `ModelManager.get_model_name` (lines 93-97): basename of the stored
path when one is set, otherwise the sentinel string. -/
def get_model_name (mm : ModelManager) : String :=
  if mm.model_path = "" then "No model loaded" else basename mm.model_path

/-- The `cv2.VideoCapture` handle as video_processor.py uses it: a video
of `nframes` frames (frame i is identified by its 0-indexed position i)
and a current read position. -/
structure Cap where
  nframes : Nat
  pos : Nat
deriving DecidableEq

/-- `cap.read()`: returns the frame at the current position and advances,
or fails (leaving the position in place) when the source is exhausted. -/
def Cap.read (c : Cap) : Option Nat × Cap :=
  if c.pos < c.nframes then (some c.pos, ⟨c.nframes, c.pos + 1⟩) else (none, c)

/-- `cap.set(cv2.CAP_PROP_POS_FRAMES, 0)`. -/
def Cap.setPosZero (c : Cap) : Cap := ⟨c.nframes, 0⟩

/-- `queue.Queue(maxsize=10)` capacity from video_processor.py line 28. -/
def QUEUE_MAXSIZE : Nat := 10

/-- `VideoProcessor` state (video_processor.py lines 16-33): the fields
the playback loops and controls read and write. Queued frames are kept
FIFO with the head at the front. -/
structure VideoProcessor where
  cap : Option Cap
  is_playing : Bool
  process_every_nth_frame : Nat
  frame_counter : Nat
  frame_queue : List Nat
  processing_active : Bool
deriving DecidableEq

/-- `VideoProcessor.__init__(process_every_nth_frame=n)`. -/
def VideoProcessor.init (n : Nat) : VideoProcessor := ⟨none, false, n, 0, [], false⟩

/-- `VideoProcessor._load_video_sync` success path: a fresh capture
opened at position 0 on a source of `nframes` frames. -/
def load_video (vp : VideoProcessor) (nframes : Nat) : VideoProcessor :=
  { vp with cap := some ⟨nframes, 0⟩ }

/-- `VideoProcessor.get_first_frame` (lines 95-109): `None` without a
capture; otherwise one `cap.read()`, and on success the position is set
back to 0 before the frame is returned. -/
def get_first_frame (vp : VideoProcessor) : Option Nat × VideoProcessor :=
  match vp.cap with
  | none => (none, vp)
  | some c =>
    match Cap.read c with
    | (some f, c1) => (some f, { vp with cap := some c1.setPosZero })
    | (none, c1) => (none, { vp with cap := some c1 })

/-- `VideoProcessor.start_playback` (lines 136-154): no-op without a
capture, otherwise raises both loop flags (thread spawning is implicit in
the loop functions below). -/
def start_playback (vp : VideoProcessor) : VideoProcessor :=
  if vp.cap.isSome then { vp with is_playing := true, processing_active := true } else vp

/-- `VideoProcessor.stop_playback` (lines 156-159): lowers both flags;
each loop observes its flag at the next iteration boundary and exits. -/
def stop_playback (vp : VideoProcessor) : VideoProcessor :=
  { vp with is_playing := false, processing_active := false }

/-- `VideoProcessor.reset_video` (lines 161-165): with a capture open,
repositions it to frame 0 and zeroes the frame counter. -/
def reset_video (vp : VideoProcessor) : VideoProcessor :=
  match vp.cap with
  | none => vp
  | some c => { vp with cap := some c.setPosZero, frame_counter := 0 }

/-- The Stop button handler `AerialDetectionGUI.stop_video`
(main_window.py lines 368-372): `stop_playback` then `reset_video`. -/
def stop_video (vp : VideoProcessor) : VideoProcessor :=
  reset_video (stop_playback vp)

/-- Observable events of one reader-loop iteration
(`VideoProcessor._playback_loop`): a sampled frame enqueued, a sampled
frame dropped on a full queue, a non-sampled frame skipped, or the
end-of-stream notification `playback_control_callback(False)`. -/
inductive PlayEvent
  | offered (f : Nat)
  | dropped (f : Nat)
  | skipped (f : Nat)
  | stopNotify (playing : Bool)
deriving DecidableEq

/-- `VideoProcessor._playback_loop` (lines 167-193), fuelled: while
`is_playing` and a capture exists, read a frame; on end of stream lower
both flags, notify the playback-control observer once with `False`,
reset the video and break; on success increment the counter and offer
the frame to the queue exactly when the counter is divisible by the
sampling stride, dropping it if the queue holds `QUEUE_MAXSIZE` frames.
Returns the final state and the event trace. -/
def playback_loop : Nat → VideoProcessor → VideoProcessor × List PlayEvent
  | 0, vp => (vp, [])
  | Nat.succ fuel, vp =>
    if vp.is_playing && vp.cap.isSome then
      match vp.cap with
      | none => (vp, [])
      | some c =>
        match Cap.read c with
        | (none, c1) =>
          (reset_video { vp with
             cap := some c1,
             is_playing := false,
             processing_active := false },
           [PlayEvent.stopNotify false])
        | (some f, c1) =>
          let vp1 := { vp with cap := some c1, frame_counter := vp.frame_counter + 1 }
          if vp1.frame_counter % vp1.process_every_nth_frame = 0 then
            if vp1.frame_queue.length < QUEUE_MAXSIZE then
              let r := playback_loop fuel { vp1 with frame_queue := vp1.frame_queue ++ [f] }
              (r.1, PlayEvent.offered f :: r.2)
            else
              let r := playback_loop fuel vp1
              (r.1, PlayEvent.dropped f :: r.2)
          else
            let r := playback_loop fuel vp1
            (r.1, PlayEvent.skipped f :: r.2)
    else (vp, [])

/-- `VideoProcessor._processing_loop` (lines 195-212), fuelled: while
`processing_active`, dequeue the front frame and hand it to the frame
callback (the returned list, in delivery order); an empty queue is the
timeout case and just loops. -/
def processing_loop : Nat → VideoProcessor → VideoProcessor × List Nat
  | 0, vp => (vp, [])
  | Nat.succ fuel, vp =>
    if vp.processing_active then
      match vp.frame_queue with
      | [] => processing_loop fuel vp
      | f :: rest =>
        let r := processing_loop fuel { vp with frame_queue := rest }
        (r.1, f :: r.2)
    else (vp, [])

/-- Frames offered to the buffer in an event trace. -/
def offeredFrames (evs : List PlayEvent) : List Nat :=
  evs.filterMap (fun e => match e with | PlayEvent.offered f => some f | _ => none)

/-- Playback-state notifications in an event trace. -/
def stopNotifications (evs : List PlayEvent) : List Bool :=
  evs.filterMap (fun e => match e with | PlayEvent.stopNotify b => some b | _ => none)

/-- The playback session of claim C1: a fresh `VideoProcessor` with the
default stride 3, a 10-frame source loaded, playback started. -/
def vpStart10 : VideoProcessor := start_playback (load_video (VideoProcessor.init 3) 10)

/-- Combined producer/consumer state for the concurrency model: reader
position and counter, the bounded FIFO buffer, and the frames delivered
to the callback so far. -/
structure PlayState where
  nframes : Nat
  stride : Nat
  maxq : Nat
  pos : Nat
  counter : Nat
  queue : List Nat
  delivered : List Nat
deriving DecidableEq

/-- Successor state of one reader-loop read on the combined state: the
position and counter advance, and the frame just read is appended to the
queue exactly when the incremented counter hits the stride and the
bounded buffer has room (lines 181-190). -/
def readStep (s : PlayState) : PlayState :=
  { s with
    pos := s.pos + 1,
    counter := s.counter + 1,
    queue := if (s.counter + 1) % s.stride = 0 ∧ s.queue.length < s.maxq
             then s.queue ++ [s.pos] else s.queue }

/-- Successor state of one delivery-loop dequeue: the front frame leaves
the queue and is appended to the delivered-to-callback list
(lines 200-204). -/
def deliverStep (s : PlayState) (f : Nat) (rest : List Nat) : PlayState :=
  { s with queue := rest, delivered := s.delivered ++ [f] }

/-- One interleaving step of the two playback threads: either the reader
loop performs one read, or the delivery loop dequeues the front frame and
invokes the callback. Exactly one producer and one consumer act on the
queue. -/
inductive PlayStep : PlayState → PlayState → Prop
  | read (s : PlayState) (h : s.pos < s.nframes) : PlayStep s (readStep s)
  | deliver (s : PlayState) (f : Nat) (rest : List Nat) (h : s.queue = f :: rest) :
      PlayStep s (deliverStep s f rest)

/-- Frames the system still holds, in order: delivered then queued. -/
def qchain (s : PlayState) : List Nat := s.delivered ++ s.queue

/-- Invariant of the playback system: the delivered-then-queued frame
indices are strictly increasing and all below the reader position. -/
def PlayInv (s : PlayState) : Prop :=
  List.Chain' (fun a b => a < b) (qchain s) ∧ ∀ x ∈ qchain s, x < s.pos

/-- A concrete batch with class distribution A:3, B:1 (all confidences
1.0), realising the distribution of claim C8. -/
def batchA3B1 : List Detection :=
  [⟨"A", 1, 0, 0, 1, 1⟩, ⟨"A", 1, 0, 0, 1, 1⟩,
   ⟨"A", 1, 0, 0, 1, 1⟩, ⟨"B", 1, 0, 0, 1, 1⟩]

theorem insertByCount_head (p : String × Nat) (l : List (String × Nat)) :
    (insertByCount p l).head? = some p ∨ (insertByCount p l).head? = l.head? := by
  cases l with
  | nil => left; rfl
  | cons q rest =>
    rw [insertByCount]
    split
    · left; rfl
    · right; rfl

theorem insertByCount_sorted (p : String × Nat) (l : List (String × Nat))
    (h : List.Chain' (fun a b => b.2 ≤ a.2) l) :
    List.Chain' (fun a b => b.2 ≤ a.2) (insertByCount p l) := by
  induction l with
  | nil => simp [insertByCount]
  | cons q rest ih =>
    rw [insertByCount]
    split
    · rename_i hlt
      exact List.chain'_cons.mpr ⟨le_of_lt hlt, h⟩
    · rename_i hge
      have hins := ih (List.chain'_cons'.mp h).2
      rw [List.chain'_cons']
      refine ⟨?_, hins⟩
      intro y hy
      rcases insertByCount_head p rest with hh | hh
      · rw [hh] at hy
        have hyp : y = p := by simpa using hy.symm
        subst hyp
        omega
      · rw [hh] at hy
        exact (List.chain'_cons'.mp h).1 y hy

theorem insertByCount_perm (p : String × Nat) (l : List (String × Nat)) :
    (insertByCount p l).Perm (p :: l) := by
  induction l with
  | nil => exact List.Perm.refl _
  | cons q rest ih =>
    rw [insertByCount]
    split
    · exact List.Perm.refl _
    · exact (ih.cons q).trans (List.Perm.swap p q rest)

theorem sortFold_sorted (l : List (String × Nat)) :
    ∀ acc, List.Chain' (fun a b => b.2 ≤ a.2) acc →
      List.Chain' (fun a b => b.2 ≤ a.2)
        (l.foldl (fun a p => insertByCount p a) acc) := by
  induction l with
  | nil => intro acc h; simpa using h
  | cons p rest ih =>
    intro acc h
    exact ih (insertByCount p acc) (insertByCount_sorted p acc h)

theorem sortFold_perm (l : List (String × Nat)) :
    ∀ acc, (l.foldl (fun a p => insertByCount p a) acc).Perm (acc ++ l) := by
  induction l with
  | nil => intro acc; simp
  | cons p rest ih =>
    intro acc
    have h1 := ih (insertByCount p acc)
    have h2 : (insertByCount p acc ++ rest).Perm ((p :: acc) ++ rest) :=
      (insertByCount_perm p acc).append_right rest
    exact (h1.trans h2).trans List.perm_middle.symm

theorem sortByCountDesc_sorted (l : List (String × Nat)) :
    List.Chain' (fun a b => b.2 ≤ a.2) (sortByCountDesc l) :=
  sortFold_sorted l [] (List.chain'_nil)

theorem sortByCountDesc_perm (l : List (String × Nat)) :
    (sortByCountDesc l).Perm l := by
  have h := sortFold_perm l []
  simpa [sortByCountDesc] using h

theorem playInv_step {s t : PlayState} (h : PlayInv s) (hst : PlayStep s t) :
    PlayInv t := by
  obtain ⟨hch, hbd⟩ := h
  cases hst with
  | read hlt =>
    by_cases hc : (s.counter + 1) % s.stride = 0 ∧ s.queue.length < s.maxq
    · have hq : qchain (readStep s) = qchain s ++ [s.pos] := by
        simp [qchain, readStep, hc]
      constructor
      · rw [hq, List.chain'_append]
        refine ⟨hch, List.chain'_singleton _, ?_⟩
        intro x hx y hy
        have hx2 : x ∈ qchain s := by
          obtain ⟨hne, rfl⟩ := List.mem_getLast?_eq_getLast hx
          exact List.getLast_mem hne
        have hy2 : y = s.pos := by simpa using hy.symm
        subst hy2
        exact hbd x hx2
      · intro x hx
        rw [hq] at hx
        rcases List.mem_append.mp hx with hx | hx
        · have := hbd x hx
          simp only [readStep]
          omega
        · have hx2 : x = s.pos := by simpa using hx
          subst hx2
          simp [readStep]
    · have hq : qchain (readStep s) = qchain s := by
        simp [qchain, readStep, hc]
      constructor
      · rw [hq]; exact hch
      · intro x hx
        rw [hq] at hx
        have := hbd x hx
        simp only [readStep]
        omega
  | deliver f rest hqe =>
    have hq : qchain (deliverStep s f rest) = qchain s := by
      simp [qchain, deliverStep, hqe]
    constructor
    · rw [hq]; exact hch
    · intro x hx
      rw [hq] at hx
      have := hbd x hx
      simpa [deliverStep] using this

theorem playInv_reachable {s0 s : PlayState} (h0 : PlayInv s0)
    (h : Relation.ReflTransGen PlayStep s0 s) : PlayInv s := by
  induction h with
  | refl => exact h0
  | tail _ hstep ih => exact playInv_step ih hstep

/-- C1 (amended): in a playback session started on a 10-frame source with
sampling stride 3 and no buffer-full drops, the reader loop offers exactly
the frames with 0-indexed positions 2, 5 and 8 to the buffer (the counter
is incremented before the divisibility test, so the 3rd, 6th and 9th reads
are sampled); after the last frame, end of stream triggers exactly one
stop notification (playing = false) and resets the frame source to
position 0 with the frame counter zeroed, so the next read returns
frame 0 again. -/
theorem c1_playback_run :
    offeredFrames (playback_loop 20 vpStart10).2 = [2, 5, 8] ∧
    stopNotifications (playback_loop 20 vpStart10).2 = [false] ∧
    (playback_loop 20 vpStart10).1.is_playing = false ∧
    (playback_loop 20 vpStart10).1.cap = some ⟨10, 0⟩ ∧
    (playback_loop 20 vpStart10).1.frame_counter = 0 ∧
    (Cap.read (((playback_loop 20 vpStart10).1.cap).getD ⟨0, 0⟩)).1 = some 0 := by
  decide

/-- C1 (counterexample): on the same session the claimed offered set
(0-indexed positions 3, 6, 9) is wrong: position 2 is offered and
position 3 is not. -/
theorem c1_sampling_counterexample :
    2 ∈ offeredFrames (playback_loop 20 vpStart10).2 ∧
    3 ∉ offeredFrames (playback_loop 20 vpStart10).2 := by
  decide

/-- C2: `predict` fails with the distinct "No model loaded" error when no
model is present; with a model present, `configure(c, i)` followed by
`predict` passes exactly the stored thresholds (c, i) to the backend
inference call, never a stale prior value. -/
theorem c2_predict_thresholds (mm : ModelManager) (img : Nat) (c i : ℚ)
    (hc0 : 0 ≤ c) (hc1 : c ≤ 1) (hi0 : 0 ≤ i) (hi1 : i ≤ 1) :
    (mm.model = none → predict mm img = Except.error "No model loaded") ∧
    (mm.model ≠ none →
      predictCall (configure c i mm) img = Except.ok ⟨img, c, i⟩) := by
  constructor
  · intro h
    simp [predict, h]
  · intro h
    match hm : mm.model with
    | none => exact absurd hm h
    | some m =>
      simp [predictCall, predict, configure, update_iou, update_confidence,
        Except.map, hm]

/-- C2 witness: the not-loaded error on a fresh manager, and exact
threshold pass-through (0.5, 0.25) on a loaded manager whose model still
carries stale values (0.9, 0.4). -/
theorem c2_predict_thresholds_witness :
    predict ModelManager.init 7 = Except.error "No model loaded" ∧
    predictCall (configure (1/2) (1/4) ⟨some ⟨9/10, 2/5⟩, "m.pt", 9/10, 2/5⟩) 7 =
      Except.ok ⟨7, 1/2, 1/4⟩ := by
  constructor
  · exact (c2_predict_thresholds ModelManager.init 7 (1/2) (1/4)
      (by norm_num) (by norm_num) (by norm_num) (by norm_num)).1 rfl
  · exact (c2_predict_thresholds ⟨some ⟨9/10, 2/5⟩, "m.pt", 9/10, 2/5⟩ 7 (1/2) (1/4)
      (by norm_num) (by norm_num) (by norm_num) (by norm_num)).2 (by simp)

/-- C3: when the backend model constructor fails (e.g. a nonexistent
path), `load_model` returns a failure result with the manager state fully
unchanged: the prior model object stays loaded and `get_model_name` still
reports the prior model's file name. -/
theorem c3_load_failure_preserves_state (hub : String → Option YoloModel)
    (mm : ModelManager) (path : String) (h : hub path = none) :
    load_model hub mm path = (false, mm) ∧
    (load_model hub mm path).2.model = mm.model ∧
    get_model_name (load_model hub mm path).2 = get_model_name mm := by
  simp [load_model, h]

/-- C3 witness: loading a missing path on a manager holding a previously
loaded model reports failure and keeps the prior model and name. -/
theorem c3_load_failure_preserves_state_witness :
    load_model (fun _ => none) ⟨some ⟨1/2, 9/20⟩, "weights/best.pt", 1/2, 9/20⟩
        "missing/model.pt" =
      (false, ⟨some ⟨1/2, 9/20⟩, "weights/best.pt", 1/2, 9/20⟩) ∧
    (load_model (fun _ => none) ⟨some ⟨1/2, 9/20⟩, "weights/best.pt", 1/2, 9/20⟩
        "missing/model.pt").2.model =
      (⟨some ⟨1/2, 9/20⟩, "weights/best.pt", 1/2, 9/20⟩ : ModelManager).model ∧
    get_model_name (load_model (fun _ => none)
        ⟨some ⟨1/2, 9/20⟩, "weights/best.pt", 1/2, 9/20⟩ "missing/model.pt").2 =
      get_model_name ⟨some ⟨1/2, 9/20⟩, "weights/best.pt", 1/2, 9/20⟩ :=
  c3_load_failure_preserves_state (fun _ => none)
    ⟨some ⟨1/2, 9/20⟩, "weights/best.pt", 1/2, 9/20⟩ "missing/model.pt" rfl

/-- C4 (counterexample): threshold updates neither reject nor clamp:
storing confidence 2 and IoU 1.5 succeeds and leaves stored values
outside [0, 1]. -/
theorem c4_no_clamping_counterexample :
    (update_confidence 2 ModelManager.init).confidence_threshold = 2 ∧
    ¬ (update_confidence 2 ModelManager.init).confidence_threshold ≤ 1 ∧
    (update_iou (3/2) ModelManager.init).iou_threshold = 3/2 ∧
    ¬ (update_iou (3/2) ModelManager.init).iou_threshold ≤ 1 := by
  refine ⟨rfl, ?_, rfl, ?_⟩
  · show ¬ (2 : ℚ) ≤ 1
    norm_num
  · show ¬ (3/2 : ℚ) ≤ 1
    norm_num

/-- C4 (amended): `configure` stores both thresholds exactly as given,
with no validation, rejection or clamping; the defaults are confidence
0.5 and IoU 0.45. -/
theorem c4_configure_stores_unvalidated (mm : ModelManager) (c i : ℚ) :
    (configure c i mm).confidence_threshold = c ∧
    (configure c i mm).iou_threshold = i ∧
    ModelManager.init.confidence_threshold = 1/2 ∧
    ModelManager.init.iou_threshold = 9/20 :=
  ⟨rfl, rfl, rfl, rfl⟩

/-- C5 (counterexample): for the batch with labels [A, B, B] the
class-counts keys come out [B, A] (descending count), not the first-seen
order [A, B]. -/
theorem c5_order_counterexample :
    ((generate_detection_stats
        [⟨"A", 1, 0, 0, 1, 1⟩, ⟨"B", 1, 0, 0, 1, 1⟩, ⟨"B", 1, 0, 0, 1, 1⟩]).class_counts).map
        Prod.fst = ["B", "A"] ∧
    firstSeen ([⟨"A", 1, 0, 0, 1, 1⟩, ⟨"B", 1, 0, 0, 1, 1⟩,
        ⟨"B", 1, 0, 0, 1, 1⟩].map Detection.name) = ["A", "B"] ∧
    (["B", "A"] : List String) ≠ ["A", "B"] := by
  decide

/-- C5 (amended): for every non-empty batch, `class_counts` pairs each
distinct label (exactly the first-seen distinct labels, as a permutation)
with its occurrence count, and enumerates them in non-increasing count
order (pandas `value_counts`), not in first-seen order. -/
theorem c5_class_counts_desc_order (d : Detection) (ds : List Detection) :
    List.Chain' (fun a b => b.2 ≤ a.2)
      (generate_detection_stats (d :: ds)).class_counts ∧
    ((generate_detection_stats (d :: ds)).class_counts).Perm
      ((firstSeen ((d :: ds).map Detection.name)).map
        (fun s => (s, ((d :: ds).map Detection.name).count s))) := by
  constructor
  · exact sortByCountDesc_sorted _
  · exact sortByCountDesc_perm _

/-- C6: the Stop control (`stop_playback` then `reset_video`) lowers both
loop flags — so the reader loop and the delivery loop exit at their next
iteration boundary, producing nothing — and resets the frame source to
position 0 with the frame counter zeroed. -/
theorem c6_stop_video_stops_and_resets (vp : VideoProcessor) (c : Cap)
    (h : vp.cap = some c) :
    (stop_video vp).is_playing = false ∧
    (stop_video vp).processing_active = false ∧
    (stop_video vp).cap = some ⟨c.nframes, 0⟩ ∧
    (stop_video vp).frame_counter = 0 ∧
    (∀ fuel, playback_loop fuel (stop_video vp) = (stop_video vp, [])) ∧
    (∀ fuel, processing_loop fuel (stop_video vp) = (stop_video vp, [])) := by
  have hsv : stop_video vp = { vp with
      is_playing := false,
      processing_active := false,
      cap := some ⟨c.nframes, 0⟩,
      frame_counter := 0 } := by
    simp [stop_video, stop_playback, reset_video, h, Cap.setPosZero]
  refine ⟨by rw [hsv], by rw [hsv], by rw [hsv], by rw [hsv], ?_, ?_⟩
  · intro fuel
    cases fuel with
    | zero => rfl
    | succ n => rw [hsv]; simp [playback_loop]
  · intro fuel
    cases fuel with
    | zero => rfl
    | succ n => rw [hsv]; simp [processing_loop]

/-- C6 witness: stopping a 5-frame session resets it and silences both
loops. -/
theorem c6_stop_video_stops_and_resets_witness :
    (stop_video (load_video (VideoProcessor.init 3) 5)).is_playing = false ∧
    (stop_video (load_video (VideoProcessor.init 3) 5)).processing_active = false ∧
    (stop_video (load_video (VideoProcessor.init 3) 5)).cap = some ⟨5, 0⟩ ∧
    (stop_video (load_video (VideoProcessor.init 3) 5)).frame_counter = 0 ∧
    (∀ fuel, playback_loop fuel (stop_video (load_video (VideoProcessor.init 3) 5)) =
      (stop_video (load_video (VideoProcessor.init 3) 5), [])) ∧
    (∀ fuel, processing_loop fuel (stop_video (load_video (VideoProcessor.init 3) 5)) =
      (stop_video (load_video (VideoProcessor.init 3) 5), [])) :=
  c6_stop_video_stops_and_resets (load_video (VideoProcessor.init 3) 5) ⟨5, 0⟩ rfl

/-- C7: the empty batch yields total 0 with empty class counts and absent
confidence statistics, `format_detection_results` returns the fixed
no-detections message, and `format_statistics_text` on the zero-total
stats returns the fixed zero-total message (the zero branch returns
before any percentage is computed). -/
theorem c7_empty_batch_fixed_messages :
    generate_detection_stats [] = ⟨0, [], none⟩ ∧
    format_detection_results [] =
      "🚫 No detections found.\n\nTry adjusting the confidence threshold or using a different image." ∧
    format_statistics_text (generate_detection_stats []) =
      "📊 Total Detections: 0" :=
  ⟨rfl, rfl, rfl⟩

/-- C8: for the stats of a batch with class distribution A:3, B:1
(total 4), the per-class percentages are computed as count/total*100,
giving exactly 75 for A and 25 for B, which render to one decimal place
as "75.0" and "25.0" and sum to 100; the full rendered statistics text
reports A as 75.0% and B as 25.0%. -/
theorem c8_percentages :
    statsPercentages (generate_detection_stats batchA3B1) = [("A", 75), ("B", 25)] ∧
    ((statsPercentages (generate_detection_stats batchA3B1)).map Prod.snd).sum = 100 ∧
    fmt1 75 = "75.0" ∧
    fmt1 25 = "25.0" ∧
    format_statistics_text (generate_detection_stats batchA3B1) =
      "📊 Total Detections: 4\n\n📈 Class Distribution:\n⚪ A: 3 (75.0%)\n⚪ B: 1 (25.0%)\n\n🎯 Confidence Stats:\n   Average: 1.000\n   Range: 1.000 - 1.000" := by
  have h : generate_detection_stats batchA3B1 = ⟨4, [("A", 3), ("B", 1)], some ⟨1, 1, 1⟩⟩ := by
    simp only [batchA3B1, generate_detection_stats, DetectionStats.mk.injEq,
      Option.some.injEq, ConfStats.mk.injEq]
    refine ⟨by decide, by decide, ?_⟩
    norm_num
  refine ⟨?_, ?_, by decide, by decide, ?_⟩
  · rw [h]
    norm_num [statsPercentages]
  · rw [h]
    norm_num [statsPercentages]
  · rw [h]
    norm_num [format_statistics_text, fmt1, fmt3, roundTo, pad3]
    decide

/-- C9: in every execution of the playback system (any interleaving of
reader-loop reads and delivery-loop dequeues over the shared FIFO bounded
buffer, starting from an empty buffer with nothing delivered), the frames
handed to the frame callback are in non-decreasing source order: sampling
and buffer-full drops skip frames but never reorder them. -/
theorem c9_frames_delivered_in_order (s0 s : PlayState) (hq : s0.queue = [])
    (hd : s0.delivered = []) (h : Relation.ReflTransGen PlayStep s0 s) :
    List.Chain' (fun a b => a ≤ b) s.delivered := by
  have h0 : PlayInv s0 := by
    constructor
    · simp [qchain, hq, hd]
    · intro x hx
      simp [qchain, hq, hd] at hx
  have hs := playInv_reachable h0 h
  have hch : List.Chain' (fun a b => a < b) s.delivered :=
    (List.chain'_append.mp hs.1).1
  exact hch.imp (fun a b hab => le_of_lt hab)

/-- C9 witness: a concrete two-step execution (one sampled read, one
delivery) on a 10-frame stride-3 source; the delivered list [0] is in
order. -/
theorem c9_frames_delivered_in_order_witness :
    List.Chain' (fun a b => a ≤ b) (PlayState.delivered ⟨10, 3, 10, 1, 3, [], [0]⟩) := by
  apply c9_frames_delivered_in_order ⟨10, 3, 10, 0, 2, [], []⟩ _ rfl rfl
  have h1 : PlayStep ⟨10, 3, 10, 0, 2, [], []⟩ ⟨10, 3, 10, 1, 3, [0], []⟩ :=
    PlayStep.read ⟨10, 3, 10, 0, 2, [], []⟩ (by decide)
  have h2 : PlayStep ⟨10, 3, 10, 1, 3, [0], []⟩ ⟨10, 3, 10, 1, 3, [], [0]⟩ :=
    PlayStep.deliver ⟨10, 3, 10, 1, 3, [0], []⟩ 0 [] rfl
  exact Relation.ReflTransGen.tail (Relation.ReflTransGen.single h1) h2

/-- C10 (amended): `get_first_frame` returns the frame at the current
read position — not necessarily frame 0 — and on success resets the
position to 0, so the read after the call yields frame 0; with no video
open, or when the read fails, it returns the None sentinel and changes no
state. -/
theorem c10_get_first_frame_spec (vp : VideoProcessor) :
    (vp.cap = none → get_first_frame vp = (none, vp)) ∧
    (∀ c, vp.cap = some c → c.pos < c.nframes →
      get_first_frame vp = (some c.pos, { vp with cap := some ⟨c.nframes, 0⟩ }) ∧
      (Cap.read ⟨c.nframes, 0⟩).1 = some 0) ∧
    (∀ c, vp.cap = some c → ¬ c.pos < c.nframes → get_first_frame vp = (none, vp)) := by
  refine ⟨?_, ?_, ?_⟩
  · intro h
    simp [get_first_frame, h]
  · intro c h hlt
    constructor
    · simp [get_first_frame, h, Cap.read, hlt, Cap.setPosZero]
    · have h0 : 0 < c.nframes := Nat.lt_of_le_of_lt (Nat.zero_le _) hlt
      simp [Cap.read, h0]
  · intro c h hnlt
    have he : get_first_frame vp = (none, { vp with cap := some c }) := by
      simp [get_first_frame, h, Cap.read, hnlt]
    rw [he, ← h]

/-- C10 witness: no-video, successful-read (2-frame source at position 0)
and failed-read (2-frame source at position 2) cases at concrete
states. -/
theorem c10_get_first_frame_spec_witness :
    get_first_frame (VideoProcessor.init 3) = (none, VideoProcessor.init 3) ∧
    (get_first_frame (load_video (VideoProcessor.init 3) 2) =
      (some 0, { load_video (VideoProcessor.init 3) 2 with cap := some ⟨2, 0⟩ }) ∧
      (Cap.read ⟨2, 0⟩).1 = some 0) ∧
    get_first_frame { VideoProcessor.init 3 with cap := some ⟨2, 2⟩ } =
      (none, { VideoProcessor.init 3 with cap := some ⟨2, 2⟩ }) := by
  refine ⟨?_, ?_, ?_⟩
  · exact (c10_get_first_frame_spec (VideoProcessor.init 3)).1 rfl
  · exact (c10_get_first_frame_spec (load_video (VideoProcessor.init 3) 2)).2.1
      ⟨2, 0⟩ rfl (by decide)
  · exact (c10_get_first_frame_spec { VideoProcessor.init 3 with cap := some ⟨2, 2⟩ }).2.2
      ⟨2, 2⟩ rfl (by decide)

/-- C10 (counterexample): on a 2-frame source positioned at frame 1, a
successful `get_first_frame` returns frame 1, not frame 0. -/
theorem c10_first_frame_counterexample :
    (get_first_frame { VideoProcessor.init 3 with cap := some ⟨2, 1⟩ }).1 = some 1 ∧
    ¬ (get_first_frame { VideoProcessor.init 3 with cap := some ⟨2, 1⟩ }).1 = some 0 := by
  decide
